import Mathlib

/-!
Verification development for the Camera Adjuster tool (src/view.py, version 2.2.0).

The Python source is shallowly embedded: floating-point values are modelled as
exact rationals, Python strings as Lean strings (character lists), the Maya host
scene as explicit state or as a list of emitted host calls, and fallible Python
code (raised exceptions) as `Except` values.  Python `round(x, 3)` is modelled
as rounding to the nearest multiple of 1/1000 (half up); no statement below
evaluates `round` at a tie.
-/

/- ===================== Python string operations ===================== -/

/-- The single-quote character used by Python `str()` on a list of strings. -/
def quoteChar : Char := Char.ofNat 39

/-- Remove every occurrence of a character from a character list; this is
Python `s.replace(c, "")` for a one-character pattern. -/
def removeChar (c : Char) : List Char → List Char
  | [] => []
  | x :: xs => if x = c then removeChar c xs else x :: removeChar c xs

/-- Python `s.replace(c, "")` on strings, for a one-character pattern `c`. -/
def pyDropChar (c : Char) (s : String) : String := String.mk (removeChar c s.data)

/-- Python `str(lst)` for a one-element list holding one quote-free string:
an opening bracket, the element wrapped in single quotes, a closing bracket.
`view.py` line 466 applies `str()` to exactly such a list. -/
def pyListRepr1 (s : String) : String :=
  String.mk (('[' : Char) :: quoteChar :: (s.data ++ [quoteChar, (']' : Char)]))

/-- A message sent to the module logger `LOG`. -/
inductive LogEntry where
  | logError (msg : String)
  | logWarning (msg : String)
deriving DecidableEq

/-- A mutating Maya host call made by the image-plane menu actions. -/
inductive HostCall where
  | imagePlane (camera : String) (fileName : String)
deriving DecidableEq

/-- The tuple returned by `QtWidgets.QFileDialog.getOpenFileName`: the selected
path (empty when the user cancels the dialog) and the active name filter. -/
structure DialogResult where
  path : String
  nameFilter : String

namespace CameraAdjuster

/-- Model of `CameraAdjuster.browse_command` (view.py 453-468): the dialog tuple is
turned into a list, the trailing filter entry is popped, the remaining
one-element list is passed through `str()`, and the bracket characters are
replaced away.  Note the single quotes added by `str()` are NOT removed here. -/
def browse_command (sel_file : DialogResult) : String :=
  let new_string := pyListRepr1 sel_file.path
  pyDropChar ']' (pyDropChar '[' new_string)

/-- The message logged by `new_imagePlane` when it decides no file was picked. -/
def noFileMsg : String := "No file was selected. ImagePlane cancelled."

/-- Model of `CameraAdjuster.new_imagePlane` (view.py 415-427): browse for a file; if
the returned string is empty, log and stop; otherwise strip single quotes and
call `cmds.imagePlane` on the active camera.  Returns the emitted host calls
and log entries.  (`change_image_display` is presentation-only and omitted.) -/
def new_imagePlane (current_cam : String) (sel_file : DialogResult) :
    List HostCall × List LogEntry :=
  let file_path := browse_command sel_file
  if file_path.length = 0 then
    ([], [LogEntry.logError noFileMsg])
  else
    let fp := pyDropChar quoteChar file_path
    ([HostCall.imagePlane current_cam fp], [])

end CameraAdjuster

/- ===================== Rounding ===================== -/

/-- Python `round(x, 3)` on exact rationals: nearest multiple of 1/1000,
half rounded up.  (Python rounds ties to even; no statement below evaluates
this function at a tie, so the choice is immaterial here.) -/
def round3 (q : ℚ) : ℚ := (⌊q * 1000 + 1/2⌋ : ℚ) / 1000

/- ===================== Camera classes ===================== -/

namespace NewOrthoCamera

/-- Model of `NewOrthoCamera.__init__` (view.py 569): `pixels_to_inches` is the active
viewport pixel width divided by the camera's `orthographicWidth` attribute. -/
def pixels_to_inches (portWidth orthographicWidth : ℚ) : ℚ :=
  portWidth / orthographicWidth

/-- Model of `NewOrthoCamera.__init__` / `pan_init` (view.py 571-572, 581-583): the
canvas coordinates loaded from the host pan attributes. -/
def pan_init (pti horizontalPan verticalPan : ℚ) : ℚ × ℚ :=
  (horizontalPan / 3 * pti, verticalPan / 3 * pti)

/-- Model of `NewOrthoCamera.pan_method` (view.py 574-576): the absolute
`cmds.panZoom` distances written to the host, rounded to 3 decimals. -/
def pan_method (pti x y : ℚ) : ℚ × ℚ :=
  (round3 (x * 3 / pti), round3 (y * 3 / pti))

/-- Model of `NewOrthoCamera.return_coordinates` (view.py 585-588): the loaded
coordinates with the vertical axis sign-flipped for the canvas. -/
def return_coordinates (pti horizontalPan verticalPan : ℚ) : ℚ × ℚ :=
  ((pan_init pti horizontalPan verticalPan).1,
   -(pan_init pti horizontalPan verticalPan).2)

end NewOrthoCamera

namespace NewPerspCamera

/-- Model of `NewPerspCamera.__init__` / `pan_init` (view.py 600-604, 613-615): `width`
and `height` are the host film-aperture attributes, `grid_x`/`grid_y` the
canvas pixel dimensions; each loaded coordinate is
`host_pan / film_aperture * canvas_dimension`. -/
def pan_init (width height grid_x grid_y horizontalPan verticalPan : ℚ) : ℚ × ℚ :=
  (horizontalPan / width * grid_x, verticalPan / height * grid_y)

/-- Model of `NewPerspCamera.pan_method` (view.py 606-608): the absolute `cmds.panZoom`
distances written to the host, rounded to 3 decimals. -/
def pan_method (width height grid_x grid_y x y : ℚ) : ℚ × ℚ :=
  (round3 (x * width / grid_x), round3 (y * height / grid_y))

/-- Model of `NewPerspCamera.return_coordinates` (view.py 617-620). -/
def return_coordinates (width height grid_x grid_y horizontalPan verticalPan : ℚ) : ℚ × ℚ :=
  ((pan_init width height grid_x grid_y horizontalPan verticalPan).1,
   -(pan_init width height grid_x grid_y horizontalPan verticalPan).2)

end NewPerspCamera

/-- The per-projection data that `pan_method` dispatches on: an orthographic
camera carries its `pixels_to_inches` ratio, a perspective camera its film
aperture and canvas grid dimensions. -/
inductive Camera where
  | ortho (pixels_to_inches : ℚ)
  | persp (width height grid_x grid_y : ℚ)

/-- Dispatch of `pan_method` on the camera's projection kind. -/
def Camera.pan_method : Camera → ℚ → ℚ → ℚ × ℚ
  | .ortho pti, x, y => NewOrthoCamera.pan_method pti x y
  | .persp w h gx gy, x, y => NewPerspCamera.pan_method w h gx gy x y

/- ===================== CameraView ===================== -/

/-- The pan/zoom state of the `CameraView` widget together with its active
camera: the visible scene-rect center (what `mapToScene(viewport).center()`
reports), the camera's stored canvas coordinates `coord_x`/`coord_y`, and the
stored display zoom `self.camera.zoom`. -/
structure CameraView where
  camera : Camera
  center_x : ℚ
  center_y : ℚ
  coord_x : ℚ
  coord_y : ℚ
  zoom : ℚ

namespace CameraView

/-- The `wheelEvent` local `zoom_magnify_max` (view.py 749): despite the name,
this is the LOWER clamp bound, 0.5. -/
def zoom_magnify_max : ℚ := 1/2

/-- The `wheelEvent` local `zoom_magnify_min` (view.py 750): despite the name,
this is the UPPER clamp bound, 4.0. -/
def zoom_magnify_min : ℚ := 4

/-- The branch of `wheelEvent` on the sign of `degrees` (view.py 753-758):
positive multiplies the stored zoom by 1.05, negative divides it by 1.05,
zero sets it to 1. -/
def zoomStep (zoom degrees : ℚ) : ℚ :=
  if 0 < degrees then zoom * (105/100)
  else if degrees < 0 then zoom / (105/100)
  else 1

/-- The clamp at the end of `wheelEvent` (view.py 759-762). -/
def zoomClamp (z : ℚ) : ℚ :=
  if z < zoom_magnify_max then zoom_magnify_max
  else if zoom_magnify_min < z then zoom_magnify_min
  else z

/-- Model of `CameraView.wheelEvent` (view.py 747-764): `angle_y` is the vertical wheel
angle `event.angleDelta() / 8` (so `degrees = angle_y * 15` has the same sign
and zeroness as the raw wheel delta).  Returns the new widget state and the
value written to the host `zoom` attribute, which the source computes as
`1 / self.camera.zoom` after the update. -/
def wheelEvent (s : CameraView) (angle_y : ℚ) : CameraView × ℚ :=
  let degrees := angle_y * 15
  let z2 := zoomClamp (zoomStep s.zoom degrees)
  ({ s with zoom := z2 }, 1 / z2)

/-- Iterated wheel events: apply one `wheelEvent` per listed angle. -/
def wheelTicks (s : CameraView) : List ℚ → CameraView
  | [] => s
  | a :: rest => wheelTicks (wheelEvent s a).1 rest

/-- Model of `CameraView.reset_zoom` (view.py 713-718): sets the stored zoom to 1 and
writes `self.camera.zoom` (now 1) to the host `zoom` attribute. -/
def reset_zoom (s : CameraView) : CameraView × ℚ :=
  let s2 := { s with zoom := 1 }
  (s2, s2.zoom)

/-- Model of `CameraView.mouseMoveEvent` (view.py 766-775): the scroll-hand drag first
moves the visible center by the canvas-space delta `(dx, dy)`; the handler
then reads the new center `(x, y)`, hands it to the active camera's
`pan_method` (an absolute host write), and stores `coord_x = x`,
`coord_y = -y`.  Returns the new state and the pair of host pan distances. -/
def mouseMoveEvent (s : CameraView) (dx dy : ℚ) : CameraView × (ℚ × ℚ) :=
  let x := s.center_x + dx
  let y := s.center_y + dy
  ({ s with center_x := x, center_y := y, coord_x := x, coord_y := -y },
   s.camera.pan_method x y)

end CameraView

/- ===================== NavGrid (lock-aware attribute writes) ===================== -/

/-- A host scene-graph attribute: its value and its persistent lock flag. -/
structure HostAttr where
  value : ℚ
  locked : Bool

/-- Model of `cmds.setAttr` writing a value: Maya rejects writes to a locked
attribute, so the state is unchanged when the lock is set. -/
def setAttrValue (a : HostAttr) (v : ℚ) : HostAttr :=
  if a.locked then a else { a with value := v }

/-- Model of `cmds.setAttr(attr, lock=b)`: set or clear the lock flag. -/
def setAttrLock (a : HostAttr) (l : Bool) : HostAttr := { a with locked := l }

namespace NavGrid

/-- Model of `NavGrid.adjust_value` (view.py 1031-1053) acting on the targeted
attribute: read the current value and lock state; if locked, unlock, write
`current ± increment`, re-lock; otherwise write directly. -/
def adjust_value (a : HostAttr) (increment : ℚ) (negative : Bool) : HostAttr :=
  let current_val := a.value
  let output := if negative then current_val - increment else current_val + increment
  if a.locked then
    setAttrLock (setAttrValue (setAttrLock a false) output) true
  else
    setAttrValue a output

/-- The Up/Down-arrow branch of `NavGrid.keyPressEvent` (view.py 994-1020),
acting on the selected attribute; `down = true` subtracts the step.  It
follows the same lock/write/re-lock pattern as `adjust_value`. -/
def keyPressEvent_step (a : HostAttr) (step : ℚ) (down : Bool) : HostAttr :=
  let current := a.value
  let output := if down then current - step else current + step
  if a.locked then
    setAttrLock (setAttrValue (setAttrLock a false) output) true
  else
    setAttrValue a output

end NavGrid

/- ===================== StepWidget ===================== -/

/-- A Python runtime error relevant here: attribute lookup failure. -/
inductive PyError where
  | attributeError (name : String)
deriving DecidableEq

/-- The fields of a `QDoubleSpinBox` that `StepWidget.__init__` touches. -/
structure QDoubleSpinBox where
  decimals : ℕ
  singleStep : ℚ
  value : ℚ
  minimum : ℚ
  maximum : ℚ
deriving DecidableEq

/-- Qt defaults for a fresh `QDoubleSpinBox`: 2 decimals, single step 1,
value 0, range [0, 99.99]. -/
def QDoubleSpinBox.new : QDoubleSpinBox := ⟨2, 1, 0, 0, 9999/100⟩

namespace StepWidget

/-- The instance attributes `StepWidget.__init__` (view.py 1079-1097) has
assigned on `self` by the time the limits check on line 1098 runs. -/
def assignedAttrs : List String :=
  ["text", "limits", "decimals", "step_size", "default_val",
   "main_layout", "label", "step_box"]

/-- The read of `self.max` on view.py line 1099: `max` is never assigned on a
`StepWidget` (see `assignedAttrs`; it is also not a member of the Qt widget
base class), so per Python semantics the lookup raises `AttributeError`.
The ok arm models the lookup succeeding and is unreachable. -/
def getattr_max : Except PyError ℚ :=
  if "max" ∈ assignedAttrs then Except.ok 0
  else Except.error (PyError.attributeError "max")

/-- The message on view.py line 1100. -/
def minGeMaxMsg : String := "Minimum is set greater than or equal to maximum."

/-- The constructed widget: its configuration, its spin box, and the log
entries emitted during construction. -/
structure State where
  limits : ℚ × ℚ
  step_size : ℚ
  default_val : ℚ
  step_box : QDoubleSpinBox
  logs : List LogEntry
deriving DecidableEq

/-- Model of `StepWidget.__init__` (view.py 1068-1108): spin-box setup followed by the
limit-handling block.  Python float truthiness is `≠ 0`; a raised exception
aborts construction, modelled as `Except.error`.  Lines 1098-1100: when both
limits are truthy, compare `limits[0]` against `self.max` (see
`getattr_max`) and log when minimum ≥ maximum.  Lines 1101-1108: apply each
truthy limit to the spin box, first clamping the displayed value. -/
def init (limits : ℚ × ℚ) (decimals : ℕ) (step_size default_val : ℚ) :
    Except PyError State :=
  let box0 : QDoubleSpinBox :=
    { QDoubleSpinBox.new with
        decimals := decimals, singleStep := step_size, value := default_val }
  let checked : Except PyError (List LogEntry) :=
    if limits.1 ≠ 0 ∧ limits.2 ≠ 0 then
      match getattr_max with
      | Except.error e => Except.error e
      | Except.ok m =>
          if limits.1 ≥ m then Except.ok [LogEntry.logError minGeMaxMsg]
          else Except.ok []
    else Except.ok []
  match checked with
  | Except.error e => Except.error e
  | Except.ok logs =>
      let box1 :=
        if limits.1 ≠ 0 then
          { box0 with
              value := if default_val < limits.1 then limits.1 else box0.value,
              minimum := limits.1 }
        else box0
      let box2 :=
        if limits.2 ≠ 0 then
          { box1 with
              value := if limits.2 < default_val then limits.2 else box1.value,
              maximum := limits.2 }
        else box1
      Except.ok { limits := limits, step_size := step_size,
                  default_val := default_val, step_box := box2, logs := logs }

end StepWidget

/- ===================== Concrete instances ===================== -/

/-- The filter string passed to the file dialog (view.py 457). -/
def imageFilterStr : String := "Image Files (*.jpeg *.jpg *.png *.tif);;"

/-- A concrete `CameraView` used to instantiate the hypothesis-bearing
theorems: orthographic camera, centered canvas, zoom 1. -/
def sampleView : CameraView := ⟨Camera.ortho 100, 0, 0, 0, 0, 1⟩

/-- A concrete state satisfying the C7 invariant: coordinates agree with the
visible center. -/
def consistentView : CameraView := ⟨Camera.persp 36 24 500 333, 2, 3, 2, -3, 1⟩

/- ===================== Helper lemmas ===================== -/

/-- The clamp at the end of `wheelEvent` always lands in the configured
magnification range [0.5, 4]. -/
theorem zoomClamp_mem (z : ℚ) :
    CameraView.zoom_magnify_max ≤ CameraView.zoomClamp z ∧
    CameraView.zoomClamp z ≤ CameraView.zoom_magnify_min := by
  unfold CameraView.zoomClamp CameraView.zoom_magnify_max CameraView.zoom_magnify_min
  split_ifs with h1 h2
  · constructor <;> norm_num
  · constructor <;> norm_num
  · constructor <;> linarith

/-- After any single wheel event the stored zoom is in [0.5, 4]. -/
theorem wheelEvent_zoom_mem (s : CameraView) (a : ℚ) :
    CameraView.zoom_magnify_max ≤ (CameraView.wheelEvent s a).1.zoom ∧
    (CameraView.wheelEvent s a).1.zoom ≤ CameraView.zoom_magnify_min :=
  zoomClamp_mem (CameraView.zoomStep s.zoom (a * 15))

/- ===================== Claim theorems ===================== -/

/-- C1: refuted (code bug).  When the file-open dialog is cancelled,
`getOpenFileName` returns the tuple with an empty path, but `browse_command`
wraps it as the two-character string of two single quotes, so the length-0
guard in `new_imagePlane` does not fire: `cmds.imagePlane` IS called (with an
empty fileName once the quotes are stripped) and nothing at all is logged —
the claimed no-host-call-plus-warning behaviour does not happen. -/
theorem new_imagePlane_cancelled_still_calls_host :
    (CameraAdjuster.browse_command { path := "", nameFilter := imageFilterStr }).length = 2 ∧
    CameraAdjuster.new_imagePlane "perspShape" { path := "", nameFilter := imageFilterStr } =
      ([HostCall.imagePlane "perspShape" ""], []) := by
  constructor <;> rfl

/-- C2 (amended): the orthographic pan write is `round(d * 3 / pixels_to_inches, 3)`
— the claimed exact value rounded to 3 decimal places; the claim's scenario is
unaffected by the rounding: with `orthographicWidth` 10 and viewport width
1000px, a 30px horizontal drag writes exactly 0.9. -/
theorem ortho_pan_write_rounded (d : ℚ) :
    (NewOrthoCamera.pan_method (NewOrthoCamera.pixels_to_inches 1000 10) d 0).1 =
      round3 (d * 3 / 100) ∧
    (NewOrthoCamera.pan_method (NewOrthoCamera.pixels_to_inches 1000 10) 30 0).1 = 9/10 := by
  have h : NewOrthoCamera.pixels_to_inches 1000 10 = 100 := by
    norm_num [NewOrthoCamera.pixels_to_inches]
  constructor
  · simp only [NewOrthoCamera.pan_method, h]
  · simp only [NewOrthoCamera.pan_method, h]
    norm_num [round3, Int.floor_eq_iff]

/-- C2 counterexample: with viewport width 70px and `orthographicWidth` 10
(`pixels_to_inches` = 7), a 1px drag writes 0.429, not the exact 3/7 the claim
requires. -/
theorem ortho_pan_write_not_exact :
    (NewOrthoCamera.pan_method (NewOrthoCamera.pixels_to_inches 70 10) 1 0).1 ≠
      1 * 3 / NewOrthoCamera.pixels_to_inches 70 10 := by
  have h : NewOrthoCamera.pixels_to_inches 70 10 = 7 := by
    norm_num [NewOrthoCamera.pixels_to_inches]
  rw [h]
  norm_num [NewOrthoCamera.pan_method, round3, Int.floor_eq_iff]

/-- C3: confirmed.  The loaded perspective canvas pan offset is
`host_pan / film_aperture * canvas_dimension` on each axis, and in the claim's
scenario (film aperture 36 × 24, canvas 500 × 333, `horizontalPan` 0.1) the
horizontal offset is 25/18 ≈ 1.389, within 0.001 of the claimed value. -/
theorem persp_loaded_pan_formula :
    (∀ width height gx gy hPan vPan : ℚ,
        NewPerspCamera.pan_init width height gx gy hPan vPan =
          (hPan / width * gx, vPan / height * gy)) ∧
    (NewPerspCamera.pan_init 36 24 500 333 (1/10) 0).1 = 25/18 ∧
    |(NewPerspCamera.pan_init 36 24 500 333 (1/10) 0).1 - 1389/1000| ≤ 1/1000 := by
  refine ⟨fun _ _ _ _ _ _ => rfl, ?_, ?_⟩
  · norm_num [NewPerspCamera.pan_init]
  · rw [abs_le]
    constructor <;> norm_num [NewPerspCamera.pan_init]

/-- C4: confirmed.  Starting from a stored zoom inside the configured range
[0.5, 4], any sequence of nonzero wheel ticks (each multiplying or dividing
the zoom by 1.05, then clamping) keeps the stored zoom inside the range:
saturation, not wrap-around. -/
theorem zoom_saturating (s : CameraView) (ticks : List ℚ)
    (h1 : CameraView.zoom_magnify_max ≤ s.zoom)
    (h2 : s.zoom ≤ CameraView.zoom_magnify_min)
    (h3 : ∀ a ∈ ticks, a ≠ 0) :
    CameraView.zoom_magnify_max ≤ (CameraView.wheelTicks s ticks).zoom ∧
    (CameraView.wheelTicks s ticks).zoom ≤ CameraView.zoom_magnify_min := by
  induction ticks generalizing s with
  | nil => exact ⟨h1, h2⟩
  | cons a rest ih =>
      have hb := wheelEvent_zoom_mem s a
      exact ih (CameraView.wheelEvent s a).1 hb.1 hb.2
        (fun b hbmem => h3 b (List.mem_cons_of_mem a hbmem))

/-- C4 witness: the saturation theorem applied at zoom 1 with one tick up and
one tick down. -/
theorem zoom_saturating_witness :
    (CameraView.zoom_magnify_max ≤ sampleView.zoom ∧
     sampleView.zoom ≤ CameraView.zoom_magnify_min ∧
     ∀ a ∈ [(1 : ℚ), -1], a ≠ 0) ∧
    (CameraView.zoom_magnify_max ≤ (CameraView.wheelTicks sampleView [1, -1]).zoom ∧
     (CameraView.wheelTicks sampleView [1, -1]).zoom ≤ CameraView.zoom_magnify_min) := by
  have hz : ∀ a ∈ [(1 : ℚ), -1], a ≠ 0 := by
    intro a ha
    rcases List.mem_cons.mp ha with h | h
    · rw [h]; norm_num
    · rw [List.mem_singleton.mp h]; norm_num
  have h1 : CameraView.zoom_magnify_max ≤ sampleView.zoom := by
    norm_num [sampleView, CameraView.zoom_magnify_max]
  have h2 : sampleView.zoom ≤ CameraView.zoom_magnify_min := by
    norm_num [sampleView, CameraView.zoom_magnify_min]
  exact ⟨⟨h1, h2, hz⟩, zoom_saturating sampleView [1, -1] h1 h2 hz⟩

/-- C5: confirmed.  `reset_zoom` sets the stored zoom to exactly 1 and writes
1 (which equals its reciprocal) to the host zoom attribute, whatever the prior
state was. -/
theorem reset_zoom_always_one (s : CameraView) :
    (CameraView.reset_zoom s).1.zoom = 1 ∧ (CameraView.reset_zoom s).2 = 1 :=
  ⟨rfl, rfl⟩

/-- C6: confirmed.  Every wheel step writes exactly the reciprocal of the
(new) stored zoom to the host zoom attribute; since the stored zoom is
clamped into [0.5, 4] it is nonzero, so the product of stored zoom and host
write is exactly 1. -/
theorem wheel_host_write_is_reciprocal (s : CameraView) (a : ℚ) :
    (CameraView.wheelEvent s a).2 = 1 / (CameraView.wheelEvent s a).1.zoom ∧
    (CameraView.wheelEvent s a).1.zoom * (CameraView.wheelEvent s a).2 = 1 := by
  have hb := wheelEvent_zoom_mem s a
  refine ⟨rfl, ?_⟩
  have hpos : (0 : ℚ) < (CameraView.wheelEvent s a).1.zoom := by
    have hmax : (0 : ℚ) < CameraView.zoom_magnify_max := by
      norm_num [CameraView.zoom_magnify_max]
    linarith [hb.1]
  have hw : (CameraView.wheelEvent s a).2 = 1 / (CameraView.wheelEvent s a).1.zoom := rfl
  rw [hw, mul_one_div, div_self (ne_of_gt hpos)]

/-- C7: confirmed.  From any state whose stored coordinates agree with the
visible center (the invariant `mouseMoveEvent` itself establishes and
`load_pan` restores), panning by `(dx, dy)` and then by `(-dx, -dy)` returns
the stored pan offset exactly to its original value — exact equality, hence
in particular within floating-point tolerance. -/
theorem pan_round_trip (s : CameraView) (dx dy : ℚ)
    (hx : s.coord_x = s.center_x) (hy : s.coord_y = -s.center_y) :
    ((CameraView.mouseMoveEvent (CameraView.mouseMoveEvent s dx dy).1 (-dx) (-dy)).1.coord_x
        = s.coord_x) ∧
    ((CameraView.mouseMoveEvent (CameraView.mouseMoveEvent s dx dy).1 (-dx) (-dy)).1.coord_y
        = s.coord_y) := by
  constructor
  · show s.center_x + dx + -dx = s.coord_x
    rw [hx]; ring
  · show -(s.center_y + dy + -dy) = s.coord_y
    rw [hy]; ring

/-- C7 witness: the round-trip theorem applied at a concrete consistent state
and a concrete drag. -/
theorem pan_round_trip_witness :
    (consistentView.coord_x = consistentView.center_x ∧
     consistentView.coord_y = -consistentView.center_y) ∧
    (((CameraView.mouseMoveEvent (CameraView.mouseMoveEvent consistentView 5 7).1 (-5) (-7)).1.coord_x
        = consistentView.coord_x) ∧
     ((CameraView.mouseMoveEvent (CameraView.mouseMoveEvent consistentView 5 7).1 (-5) (-7)).1.coord_y
        = consistentView.coord_y)) :=
  ⟨⟨rfl, by norm_num [consistentView]⟩,
   pan_round_trip consistentView 5 7 rfl (by norm_num [consistentView])⟩

/-- C8: confirmed.  The lock-aware write paths (`adjust_value` and the
Up/Down branch of `keyPressEvent`) leave the attribute's lock flag unchanged
in both the locked-before and unlocked-before cases, and in both cases the
value ends at `current ± increment`. -/
theorem lock_state_preserved (a : HostAttr) (inc step : ℚ) (neg down : Bool) :
    ((NavGrid.adjust_value a inc neg).locked = a.locked ∧
     (NavGrid.adjust_value a inc neg).value =
       (if neg then a.value - inc else a.value + inc)) ∧
    ((NavGrid.keyPressEvent_step a step down).locked = a.locked ∧
     (NavGrid.keyPressEvent_step a step down).value =
       (if down then a.value - step else a.value + step)) := by
  cases h : a.locked <;>
    simp [NavGrid.adjust_value, NavGrid.keyPressEvent_step, setAttrValue, setAttrLock, h]

/-- C9: refuted (code bug).  The bounds check in `StepWidget.__init__`
compares `limits[0]` with the never-assigned `self.max`, so whenever both
limits are nonzero — in particular in the claim's minimum ≥ maximum scenario,
limits (5, 3) — construction raises `AttributeError` instead of logging and
completing; the same happens even for well-ordered nonzero bounds (1, 180).
Only a falsy limit (such as the 0 in the tool's own `[0, 359.999]`) skips the
broken check and lets construction finish. -/
theorem stepwidget_min_ge_max_aborts :
    StepWidget.init (5, 3) 3 1 1 = Except.error (PyError.attributeError "max") ∧
    StepWidget.init (1, 180) 3 1 1 = Except.error (PyError.attributeError "max") ∧
    StepWidget.init (0, 359999/1000) 3 5 90 =
      Except.ok ⟨(0, 359999/1000), 5, 90, ⟨3, 5, 90, 0, 359999/1000⟩, []⟩ := by
  have hmax : StepWidget.getattr_max = Except.error (PyError.attributeError "max") := by
    simp [StepWidget.getattr_max, StepWidget.assignedAttrs]
  refine ⟨?_, ?_, ?_⟩
  · simp [StepWidget.init, hmax]
  · simp [StepWidget.init, hmax]
  · simp [StepWidget.init, QDoubleSpinBox.new]
    norm_num

/-- C10: confirmed.  A wheel event whose vertical angle delta is zero does not
leave the zoom alone: the `else` branch of `wheelEvent` sets the stored zoom
to 1, which survives the clamp, and 1 (its reciprocal) is written to the host
zoom attribute, regardless of the prior zoom. -/
theorem zero_wheel_resets_zoom (s : CameraView) :
    (CameraView.wheelEvent s 0).1.zoom = 1 ∧ (CameraView.wheelEvent s 0).2 = 1 := by
  have hz : CameraView.zoomStep s.zoom (0 * 15) = 1 := by
    norm_num [CameraView.zoomStep]
  have hc : CameraView.zoomClamp 1 = 1 := by
    norm_num [CameraView.zoomClamp, CameraView.zoom_magnify_max, CameraView.zoom_magnify_min]
  constructor
  · show CameraView.zoomClamp (CameraView.zoomStep s.zoom (0 * 15)) = 1
    rw [hz, hc]
  · show 1 / CameraView.zoomClamp (CameraView.zoomStep s.zoom (0 * 15)) = 1
    rw [hz, hc]
    norm_num
